import Mathlib

/-!
Verification development for the `host.dginfotech.back` backend (src/main.py).

The in-scope components are the session registry (`login`, `validate_session`,
`user_logout`, `get_user_by_email`), the approval workflow over the relational
store (`approve_enquiry`, `deny_enquiry`, `approve_quickcontact`,
`deny_quickcontact`, `complete_client_project`) and the record serializer
(`_serialize_value`, `serialize_row_rename_image`).

Modelling conventions:
* The relational tables and the in-memory session dict are modelled as
  association lists keyed by `Nat` (SQL ids) respectively `String` (emails).
* Time is a `Nat` (an abstract count of seconds since some epoch); the
  fixed session duration of 1080 minutes becomes `1080 * 60` seconds.
* A psycopg2 transaction either commits all staged statements or, when any
  statement raises, rolls back leaving the store untouched.  Each handler is
  therefore a function from the store to `Except ApiError Unit × Store`; a
  `Fault` record says which statement of the transaction raises, and a raising
  statement aborts the handler with `internalError` and the unchanged store.
* Python `float` of a `Decimal` is modelled exactly: IEEE-754 binary64
  round-to-nearest, ties-to-even, on the decimal's rational value, with
  overflow to infinity; finite doubles are carried as their exact rational
  value.
-/

namespace DgBackend

/-- First value stored under key `k` (Python `dict.get` / SQL `fetchone` on a
unique key). -/
def lookupKey {κ α : Type} [DecidableEq κ] (k : κ) : List (κ × α) → Option α
  | [] => none
  | (k', v) :: rest => if k' = k then some v else lookupKey k rest

/-- Remove every entry stored under key `k` (Python `dict.pop(k, None)` /
SQL `DELETE ... WHERE id = k`). -/
def removeKey {κ α : Type} [DecidableEq κ] (k : κ) : List (κ × α) → List (κ × α)
  | [] => []
  | (k', v) :: rest =>
    if k' = k then removeKey k rest else (k', v) :: removeKey k rest

/-- Overwriting store under key `k` (Python `dict[k] = v`). -/
def setKey {κ α : Type} [DecidableEq κ] (k : κ) (v : α) (l : List (κ × α)) :
    List (κ × α) :=
  (k, v) :: removeKey k l

/-- Update in place the value stored under key `k`
(SQL `UPDATE ... WHERE id = k`, preserving row order). -/
def updateKey {κ α : Type} [DecidableEq κ] (k : κ) (f : α → α) :
    List (κ × α) → List (κ × α)
  | [] => []
  | (k', v) :: rest =>
    if k' = k then (k', f v) :: updateKey k f rest
    else (k', v) :: updateKey k f rest

theorem lookupKey_removeKey_self {κ α : Type} [DecidableEq κ] (k : κ)
    (l : List (κ × α)) : lookupKey k (removeKey k l) = none := by
  induction l with
  | nil => rfl
  | cons p rest ih =>
    obtain ⟨k', v⟩ := p
    by_cases h : k' = k
    · simp [removeKey, h, ih]
    · simp [removeKey, lookupKey, h, ih]

theorem lookupKey_setKey_self {κ α : Type} [DecidableEq κ] (k : κ) (v : α)
    (l : List (κ × α)) : lookupKey k (setKey k v l) = some v := by
  simp [setKey, lookupKey]

theorem lookupKey_append {κ α : Type} [DecidableEq κ] (k : κ)
    (l₁ l₂ : List (κ × α)) :
    lookupKey k (l₁ ++ l₂) =
      match lookupKey k l₁ with
      | some v => some v
      | none => lookupKey k l₂ := by
  induction l₁ with
  | nil => simp [lookupKey]
  | cons p rest ih =>
    obtain ⟨k', v⟩ := p
    by_cases h : k' = k
    · simp [lookupKey, h]
    · simp [lookupKey, h, ih]

theorem lookupKey_eq_none_of_forall {κ α : Type} [DecidableEq κ] (k : κ)
    (l : List (κ × α)) (h : ∀ p ∈ l, p.1 ≠ k) : lookupKey k l = none := by
  induction l with
  | nil => rfl
  | cons p rest ih =>
    obtain ⟨k', v⟩ := p
    have hk : k' ≠ k := h (k', v) (List.mem_cons_self _ _)
    simp only [lookupKey, if_neg hk]
    exact ih fun q hq => h q (List.mem_cons_of_mem _ hq)

/-- Error taxonomy of the HTTP surface: `HTTPException(404)`,
`HTTPException(401)` and `HTTPException(500)`. -/
inductive ApiError : Type
  | notFound
  | unauthorized
  | internalError
  deriving DecidableEq, Repr

/-! ## Session registry (src/main.py lines 291-409) -/

/-- A row of the `users` table. -/
structure User : Type where
  id : Nat
  email : String
  password : String
  deriving DecidableEq, Repr

/-- One value of the in-memory `active_sessions` dict. -/
structure SessionData : Type where
  session_id : String
  expires_at : Nat
  deriving DecidableEq, Repr

/-- The in-memory `active_sessions` dict, keyed by user email. -/
abbrev Sessions : Type := List (String × SessionData)

/-- `SESSION_DURATION_MINUTES = 1080`. -/
def SESSION_DURATION_MINUTES : Nat := 1080

/-- `get_user_by_email`: `SELECT * FROM users WHERE email = %s` then
`fetchone()`; any raised exception is caught and turned into `None`.
`dbFault` models the storage layer raising. -/
def get_user_by_email (dbFault : Bool) (users : List User) (email : String) :
    Option User :=
  if dbFault then none
  else users.find? fun u => u.email = email

/-- Successful-login payload: the returned `user_id` and `session_id`. -/
structure LoginResult : Type where
  user_id : Nat
  session_id : String
  deriving DecidableEq, Repr

/-- `login` handler: look the user up by email, compare the plaintext
password, then store a fresh session (overwriting any prior entry for that
email) expiring `SESSION_DURATION_MINUTES` from now.  `fresh` stands for the
generated `uuid4` string, `now` for `datetime.utcnow()` in seconds. -/
def login (dbFault : Bool) (users : List User) (now : Nat) (fresh : String)
    (ss : Sessions) (email password : String) :
    Except ApiError LoginResult × Sessions :=
  match get_user_by_email dbFault users email with
  | none => (Except.error ApiError.unauthorized, ss)
  | some u =>
    if u.password ≠ password then (Except.error ApiError.unauthorized, ss)
    else
      (Except.ok ⟨u.id, fresh⟩,
        setKey u.email ⟨fresh, now + SESSION_DURATION_MINUTES * 60⟩ ss)

/-- `validate_session` handler: the result `Bool` is `true` for
`{"status": "valid"}` and `false` for the 401 `{"status": "invalid"}`
response; the returned `Sessions` is the dict after the handler ran. -/
def validate_session (now : Nat) (ss : Sessions) (email session_id : String) :
    Bool × Sessions :=
  match lookupKey email ss with
  | none => (false, removeKey email ss)
  | some s =>
    if s.session_id ≠ session_id ∨ s.expires_at < now then
      (false, removeKey email ss)
    else (true, ss)

/-- `user_logout` handler: `active_sessions.pop(req.email, None)`; the
supplied `session_id` is never consulted. -/
def user_logout (ss : Sessions) (email _session_id : String) : Sessions :=
  removeKey email ss

theorem get_user_by_email_email (users : List User) (email : String)
    (u : User) (h : get_user_by_email false users email = some u) :
    u.email = email := by
  simp only [get_user_by_email, if_neg (Bool.false_ne_true)] at h
  have := List.find?_some h
  exact of_decide_eq_true this

/-! ## Relational store and approval workflow (src/main.py lines 631-914) -/

/-- A calendar date (Python `datetime.date`). -/
structure Date : Type where
  year : Nat
  month : Nat
  day : Nat
  deriving DecidableEq, Repr

/-- A row of the `enquiries` table. -/
structure Enquiry : Type where
  name : String
  email : String
  phone : Option String
  service : Option String
  budget : String
  timeline : String
  idea : String
  description : String
  reference : Option String
  consent : Bool
  submitted_at : Nat
  deriving DecidableEq, Repr

/-- A row of the `quickcontact` table. -/
structure QuickContact : Type where
  name : String
  phone : String
  subject : Option String
  message : Option String
  created_at : Nat
  deriving DecidableEq, Repr

/-- A row of the `active_clients` table (the `created_at`/`updated_at`
timestamp columns, filled by storage defaults and never consulted by the
handlers, are omitted). -/
structure ActiveClient : Type where
  client_name : Option String
  contact_email : Option String
  contact_phone : Option String
  project_title : String
  project_description : String
  delivery_date : Date
  advance_token : String
  project_manager : String
  project_reference : Option String
  status : String
  deriving DecidableEq, Repr

/-- Modelled from the spec: the database schema is not part of the
repository; the `INSERT INTO active_clients` statements of both approval
handlers name no `status` column, so the value comes from the column's
storage default.  Per the spec (ActiveClients are created with status
`active` and listed under `WHERE status = 'active'`), that default is
`"active"`. -/
def defaultClientStatus : String := "active"

/-- Request body `ProjectApproveRequest` for `/api/enquiries/{id}/approve`. -/
structure ProjectApproveRequest : Type where
  name : Option String
  email : Option String
  phone : Option String
  service : Option String
  budget : Option String
  timeline : Option String
  idea : Option String
  description : Option String
  reference : Option String
  consent : Option Bool
  submitted_at : Nat
  delivery_date : Date
  billing_details : String
  project_title : String
  project_description : String
  project_reference : Option String
  project_manager : String
  deriving DecidableEq, Repr

/-- Request body `QuickContactApproveRequest` for
`/api/quickcontacts/{id}/approve`. -/
structure QuickContactApproveRequest : Type where
  name : Option String
  phone : Option String
  project_title : String
  project_description : String
  delivery_date : Date
  billing_details : String
  project_manager : String
  reference : Option String
  deriving DecidableEq, Repr

/-- The relational store: the three tables the approval workflow touches.
`nextClientId` is the `active_clients` id sequence; a fresh insert receives
it as id. -/
structure Storage : Type where
  enquiries : List (Nat × Enquiry)
  quickcontacts : List (Nat × QuickContact)
  active_clients : List (Nat × ActiveClient)
  nextClientId : Nat
  deriving DecidableEq, Repr

/-- Which statement of a handler's transaction raises a storage-layer
exception.  A raising statement aborts the handler: the raised exception
escapes the `with` blocks, the transaction is rolled back (nothing was
committed yet), and the handler returns the 500 `internalError`. -/
structure Fault : Type where
  selectFails : Bool
  insertFails : Bool
  deleteFails : Bool
  commitFails : Bool
  deriving DecidableEq, Repr

/-- The fault-free execution. -/
def noFault : Fault := ⟨false, false, false, false⟩

/-- `deny_enquiry` handler: `SELECT 1 FROM enquiries WHERE id = %s`, 404 when
absent, else `DELETE FROM enquiries WHERE id = %s` and commit. -/
def deny_enquiry (st : Storage) (enquiry_id : Nat) :
    Except ApiError Unit × Storage :=
  match lookupKey enquiry_id st.enquiries with
  | none => (Except.error ApiError.notFound, st)
  | some _ =>
    (Except.ok (), { st with enquiries := removeKey enquiry_id st.enquiries })

/-- `approve_enquiry` handler: check the enquiry exists (404 otherwise),
insert one `active_clients` row taken entirely from the request body
`project_data` (the stored enquiry row is never re-read), delete the enquiry
row, commit.  All statements run inside one transaction: when any of them
raises, nothing is committed and the store is unchanged. -/
def approve_enquiry (f : Fault) (st : Storage) (enquiry_id : Nat)
    (project_data : ProjectApproveRequest) : Except ApiError Unit × Storage :=
  if f.selectFails then (Except.error ApiError.internalError, st)
  else
    match lookupKey enquiry_id st.enquiries with
    | none => (Except.error ApiError.notFound, st)
    | some _ =>
      if f.insertFails ∨ f.deleteFails ∨ f.commitFails then
        (Except.error ApiError.internalError, st)
      else
        (Except.ok (),
          { st with
            active_clients := st.active_clients ++
              [(st.nextClientId,
                { client_name := project_data.name
                  contact_email := project_data.email
                  contact_phone := project_data.phone
                  project_title := project_data.project_title
                  project_description := project_data.project_description
                  delivery_date := project_data.delivery_date
                  advance_token := project_data.billing_details
                  project_manager := project_data.project_manager
                  project_reference := none
                  status := defaultClientStatus })]
            nextClientId := st.nextClientId + 1
            enquiries := removeKey enquiry_id st.enquiries })

/-- `deny_quickcontact` handler: existence check (404 otherwise), then
`DELETE FROM quickcontact WHERE id = %s` and commit. -/
def deny_quickcontact (st : Storage) (contact_id : Nat) :
    Except ApiError Unit × Storage :=
  match lookupKey contact_id st.quickcontacts with
  | none => (Except.error ApiError.notFound, st)
  | some _ =>
    (Except.ok (),
      { st with quickcontacts := removeKey contact_id st.quickcontacts })

/-- `approve_quickcontact` handler: re-read `id, name, phone` of the
quick contact (404 when absent), insert one `active_clients` row from the
re-read name/phone plus the request body's project fields — including its
optional `reference`, stored as `project_reference` — then delete the
quick-contact row and commit, all in one transaction. -/
def approve_quickcontact (f : Fault) (st : Storage) (contact_id : Nat)
    (project_data : QuickContactApproveRequest) :
    Except ApiError Unit × Storage :=
  if f.selectFails then (Except.error ApiError.internalError, st)
  else
    match lookupKey contact_id st.quickcontacts with
    | none => (Except.error ApiError.notFound, st)
    | some contact_info =>
      if f.insertFails ∨ f.deleteFails ∨ f.commitFails then
        (Except.error ApiError.internalError, st)
      else
        (Except.ok (),
          { st with
            active_clients := st.active_clients ++
              [(st.nextClientId,
                { client_name := some contact_info.name
                  contact_email := none
                  contact_phone := some contact_info.phone
                  project_title := project_data.project_title
                  project_description := project_data.project_description
                  delivery_date := project_data.delivery_date
                  advance_token := project_data.billing_details
                  project_manager := project_data.project_manager
                  project_reference := project_data.reference
                  status := defaultClientStatus })]
            nextClientId := st.nextClientId + 1
            quickcontacts := removeKey contact_id st.quickcontacts })

/-- `complete_client_project` handler: existence check (404 otherwise), then
`UPDATE active_clients SET status='completed' WHERE id = %s` and commit. -/
def complete_client_project (st : Storage) (client_id : Nat) :
    Except ApiError Unit × Storage :=
  match lookupKey client_id st.active_clients with
  | none => (Except.error ApiError.notFound, st)
  | some _ =>
    (Except.ok (),
      { st with
        active_clients :=
          updateKey client_id (fun c => { c with status := "completed" })
            st.active_clients })

/-! ## Record serializer (src/main.py lines 305-322)

`_serialize_value` converts `Decimal` via Python `float()`, i.e. to the
nearest IEEE-754 binary64 value (ties to even, overflow to infinity), and
`date`/`datetime` via `.isoformat()`.  The binary64 conversion is embedded
exactly: a finite double is carried as its rational value. -/

/-- An exact rational `num / den` (with `den ≠ 0` in every produced value),
used to carry `Decimal` values and finite binary64 values.  All operations
below are structurally recursive so the kernel can evaluate them. -/
structure Q : Type where
  num : Int
  den : Nat
  deriving DecidableEq, Repr

/-- Reduce a `Q` to lowest terms; every `F64.finite` payload is produced in
this canonical form, so representation equality is value equality there. -/
def Q.normalize (q : Q) : Q :=
  let g := Nat.gcd q.num.natAbs q.den
  if g = 0 then ⟨0, 1⟩ else ⟨q.num / (g : Int), q.den / g⟩

/-- An IEEE-754 binary64 value as produced by Python `float()` on a
`Decimal`: a finite double carried as its exact rational value in lowest
terms, or an infinity.  (`float(Decimal)` never yields NaN.) -/
inductive F64 : Type
  | finite (q : Q)
  | inf
  | neginf
  deriving DecidableEq, Repr

/-- `⌊log₂ n⌋` for a positive natural, via the fuel-based base-2 digit
expansion (kernel-reducible, unlike `Nat.log2`). -/
def natLog2 (n : Nat) : Nat := (Nat.toDigits 2 n).length - 1

/-- `⌊log₂ (n / d)⌋` for positive naturals `n`, `d`. -/
def log2floorQ (n d : Nat) : Int :=
  let a := natLog2 n
  let b := natLog2 d
  if (d : Int) * 2 ^ a ≤ (n : Int) * 2 ^ b then (a : Int) - b
  else (a : Int) - b - 1

/-- Round `N / D` (with `D > 0`) to the nearest integer, ties to even. -/
def roundHalfEvenFrac (N D : Int) : Int :=
  let f := Int.fdiv N D
  let r := N - f * D
  if 2 * r < D then f
  else if D < 2 * r then f + 1
  else if Int.emod f 2 = 0 then f else f + 1

/-- Round an exact rational to the nearest IEEE-754 binary64 value (round
to nearest, ties to even; subnormals at granularity `2 ^ (-1074)`; overflow
to the infinities) — the semantics of Python `float()` on a `Decimal`. -/
def toF64 (q : Q) : F64 :=
  if q.num = 0 then F64.finite ⟨0, 1⟩
  else
    let e : Int := log2floorQ q.num.natAbs q.den - 52
    let e' : Int := if e < -1074 then -1074 else e
    let N : Int := q.num * 2 ^ (if e' < 0 then (-e').toNat else 0)
    let D : Int := (q.den : Int) * 2 ^ (if 0 < e' then e'.toNat else 0)
    let m : Int := roundHalfEvenFrac N D
    if 0 ≤ e' then
      let v : Int := m * 2 ^ e'.toNat
      if (2 : Int) ^ 1024 ≤ v then F64.inf
      else if v ≤ -((2 : Int) ^ 1024) then F64.neginf
      else F64.finite (Q.normalize ⟨v, 1⟩)
    else F64.finite (Q.normalize ⟨m, 2 ^ (-e').toNat⟩)

/-- The rational value of a Python `Decimal` with integer coefficient `c`
and exponent `e` (`Decimal` is `c * 10 ^ e`; e.g. `Decimal("12.50")` has
`c = 1250`, `e = -2`). -/
def decToQ (c : Int) (e : Int) : Q :=
  if 0 ≤ e then ⟨c * 10 ^ e.toNat, 1⟩ else ⟨c, 10 ^ (-e).toNat⟩

/-- Zero-pad a number to two digits, as Python `date.isoformat` does for
months, days, hours, minutes and seconds. -/
def pad2 (n : Nat) : String :=
  if n < 10 then "0" ++ toString n else toString n

/-- Zero-pad a year to four digits, as Python `date.isoformat` does. -/
def pad4 (n : Nat) : String :=
  if n < 10 then "000" ++ toString n
  else if n < 100 then "00" ++ toString n
  else if n < 1000 then "0" ++ toString n
  else toString n

/-- Python `date.isoformat()`: `YYYY-MM-DD`. -/
def dateIso (d : Date) : String :=
  pad4 d.year ++ "-" ++ pad2 d.month ++ "-" ++ pad2 d.day

/-- A wall-clock timestamp (Python `datetime.datetime`, microseconds 0). -/
structure Timestamp : Type where
  date : Date
  hour : Nat
  minute : Nat
  second : Nat
  deriving DecidableEq, Repr

/-- Python `datetime.isoformat()` with zero microseconds:
`YYYY-MM-DDTHH:MM:SS`. -/
def timestampIso (t : Timestamp) : String :=
  dateIso t.date ++ "T" ++ pad2 t.hour ++ ":" ++ pad2 t.minute ++ ":" ++
    pad2 t.second

/-- A storage-native scalar as it reaches `_serialize_value`: SQL `NULL`,
a `Decimal` (coefficient and exponent), a `date`, a `datetime`, or one of
the already wire-safe Python types. -/
inductive Value : Type
  | vNull
  | vDecimal (c : Int) (e : Int)
  | vDate (d : Date)
  | vDatetime (t : Timestamp)
  | vStr (s : String)
  | vInt (n : Int)
  | vBool (b : Bool)
  | vFloat (f : F64)
  deriving DecidableEq, Repr

/-- `_serialize_value`: `None → None`; `Decimal → float(v)`;
`datetime`/`date` → `v.isoformat()`; anything else unchanged. -/
def serialize_value : Value → Value
  | Value.vNull => Value.vNull
  | Value.vDecimal c e => Value.vFloat (toF64 (decToQ c e))
  | Value.vDate d => Value.vStr (dateIso d)
  | Value.vDatetime t => Value.vStr (timestampIso t)
  | Value.vStr s => Value.vStr s
  | Value.vInt n => Value.vInt n
  | Value.vBool b => Value.vBool b
  | Value.vFloat f => Value.vFloat f

/-- `serialize_row_rename_image`: iterate over the row's items in order,
renaming the key `image_url` to `imageUrl` and serializing every value. -/
def serialize_row_rename_image : List (String × Value) → List (String × Value)
  | [] => []
  | (k, v) :: rest =>
    (if k = "image_url" then "imageUrl" else k, serialize_value v) ::
      serialize_row_rename_image rest

/-! ## Concrete fixtures used by witnesses and counterexamples -/

/-- A concrete delivery date. -/
def dateW : Date := ⟨2024, 1, 1⟩

/-- A concrete stored enquiry row. -/
def eW : Enquiry :=
  ⟨"Alice", "alice@example.com", some "111", none, "5k", "2w", "site",
    "a site", none, true, 0⟩

/-- A concrete stored quick-contact row. -/
def cW : QuickContact := ⟨"Carol", "333", some "hello", none, 0⟩

/-- A concrete enquiry-approval request body. -/
def peW : ProjectApproveRequest :=
  ⟨some "Alice", some "alice@example.com", some "111", none, none, none,
    none, none, none, some true, 0, dateW, "adv", "Site", "Build a site",
    none, "Mgr"⟩

/-- A concrete quick-contact-approval request body. -/
def pqW : QuickContactApproveRequest :=
  ⟨some "Carol", some "333", "App", "Build an app", dateW, "adv2", "Mgr2",
    some "ref"⟩

/-- A concrete store holding enquiry 1 and quick contact 2. -/
def stW : Storage := ⟨[(1, eW)], [(2, cW)], [], 0⟩

/-! ## Claim theorems -/

/-- **C1**: after `approve_enquiry` / `approve_quickcontact` completes —
successfully or with an error, under any storage-layer fault — exactly one
of {the source row exists, the derived `active_clients` row exists} holds,
and on every error the store is unchanged.  The derived row is the one that
would receive the fresh id `st.nextClientId`; the hypothesis `hb` says that
id is indeed fresh. -/
theorem approval_atomic_exclusive (f : Fault) (st : Storage) (eid cid : Nat)
    (pe : ProjectApproveRequest) (pq : QuickContactApproveRequest)
    (hb : ∀ p ∈ st.active_clients, p.1 < st.nextClientId)
    (he : lookupKey eid st.enquiries ≠ none)
    (hq : lookupKey cid st.quickcontacts ≠ none) :
    ((∀ err, (approve_enquiry f st eid pe).1 = Except.error err →
        (approve_enquiry f st eid pe).2 = st) ∧
      Xor' (lookupKey eid (approve_enquiry f st eid pe).2.enquiries ≠ none)
        (lookupKey st.nextClientId
          (approve_enquiry f st eid pe).2.active_clients ≠ none)) ∧
    ((∀ err, (approve_quickcontact f st cid pq).1 = Except.error err →
        (approve_quickcontact f st cid pq).2 = st) ∧
      Xor' (lookupKey cid
          (approve_quickcontact f st cid pq).2.quickcontacts ≠ none)
        (lookupKey st.nextClientId
          (approve_quickcontact f st cid pq).2.active_clients ≠ none)) := by
  have hfresh : lookupKey st.nextClientId st.active_clients = none :=
    lookupKey_eq_none_of_forall _ _ fun p hp => Nat.ne_of_lt (hb p hp)
  obtain ⟨e, he'⟩ := Option.ne_none_iff_exists'.mp he
  obtain ⟨c, hc'⟩ := Option.ne_none_iff_exists'.mp hq
  have happ : ∀ ac : ActiveClient,
      lookupKey st.nextClientId
        (st.active_clients ++ [(st.nextClientId, ac)]) = some ac := by
    intro ac
    rw [lookupKey_append, hfresh]
    simp [lookupKey]
  constructor
  · by_cases hs : f.selectFails = true
    · refine ⟨fun err _ => by simp [approve_enquiry, hs], Or.inl ⟨?_, ?_⟩⟩
      · simp only [approve_enquiry, if_pos hs]
        simp [he']
      · simp only [approve_enquiry, if_pos hs]
        simp [hfresh]
    · by_cases hf :
        f.insertFails = true ∨ f.deleteFails = true ∨ f.commitFails = true
      · refine ⟨fun err _ => by simp [approve_enquiry, hs, he', hf],
          Or.inl ⟨?_, ?_⟩⟩
        · simp only [approve_enquiry, if_neg hs, he', if_pos hf]
          simp [he']
        · simp only [approve_enquiry, if_neg hs, he', if_pos hf]
          simp [hfresh]
      · refine ⟨fun err herr => ?_, Or.inr ⟨?_, ?_⟩⟩
        · exfalso
          simp [approve_enquiry, hs, he', hf] at herr
        · simp only [approve_enquiry, if_neg hs, he', if_neg hf]
          simp [happ]
        · simp only [approve_enquiry, if_neg hs, he', if_neg hf]
          simp [lookupKey_removeKey_self]
  · by_cases hs : f.selectFails = true
    · refine ⟨fun err _ => by simp [approve_quickcontact, hs], Or.inl ⟨?_, ?_⟩⟩
      · simp only [approve_quickcontact, if_pos hs]
        simp [hc']
      · simp only [approve_quickcontact, if_pos hs]
        simp [hfresh]
    · by_cases hf :
        f.insertFails = true ∨ f.deleteFails = true ∨ f.commitFails = true
      · refine ⟨fun err _ => by simp [approve_quickcontact, hs, hc', hf],
          Or.inl ⟨?_, ?_⟩⟩
        · simp only [approve_quickcontact, if_neg hs, hc', if_pos hf]
          simp [hc']
        · simp only [approve_quickcontact, if_neg hs, hc', if_pos hf]
          simp [hfresh]
      · refine ⟨fun err herr => ?_, Or.inr ⟨?_, ?_⟩⟩
        · exfalso
          simp [approve_quickcontact, hs, hc', hf] at herr
        · simp only [approve_quickcontact, if_neg hs, hc', if_neg hf]
          simp [happ]
        · simp only [approve_quickcontact, if_neg hs, hc', if_neg hf]
          simp [lookupKey_removeKey_self]

/-- Witness for C1 at the concrete store `stW`, enquiry 1, quick contact 2,
fault-free run. -/
theorem approval_atomic_exclusive_witness :
    (lookupKey 1 stW.enquiries ≠ none) ∧
    Xor' (lookupKey 1 (approve_enquiry noFault stW 1 peW).2.enquiries ≠ none)
      (lookupKey stW.nextClientId
        (approve_enquiry noFault stW 1 peW).2.active_clients ≠ none) :=
  ⟨by decide,
    (approval_atomic_exclusive noFault stW 1 2 peW pqW (by decide)
      (by decide) (by decide)).1.2⟩

/-- An approval request body whose contact fields differ from the stored
enquiry 1 of `stW` (`eW` has name `Alice`). -/
def peC2 : ProjectApproveRequest :=
  ⟨some "Bob", some "bob@example.com", some "222", none, none, none, none,
    none, none, some true, 0, dateW, "adv", "Site", "Build a site", none,
    "Mgr"⟩

/-- **C2 counterexample**: `approve_enquiry` does not populate the new
`active_clients` row from the *stored* enquiry; it copies the request body.
With stored enquiry 1 named `Alice` and a request body naming `Bob`, the
inserted row carries `Bob`. -/
theorem approve_enquiry_contact_from_request_counterexample :
    lookupKey 1 stW.enquiries = some eW ∧ eW.name = "Alice" ∧
    (approve_enquiry noFault stW 1 peC2).1 = Except.ok () ∧
    (approve_enquiry noFault stW 1 peC2).2.active_clients =
      [(0, ⟨some "Bob", some "bob@example.com", some "222", "Site",
            "Build a site", dateW, "adv", "Mgr", none, "active"⟩)] ∧
    (some "Bob" : Option String) ≠ some eW.name :=
  ⟨rfl, rfl, rfl, rfl, by decide⟩

/-- **C2 (amended)**: for every existing enquiry id, the fault-free
`approve_enquiry` inserts exactly one `active_clients` row whose contact
fields come from the caller-supplied request body (which echoes the
submission), whose project fields come from the same request body, and whose
status is the storage default `active`; it then deletes the enquiry row. -/
theorem approve_enquiry_effect (st : Storage) (eid : Nat)
    (pd : ProjectApproveRequest) (e : Enquiry)
    (he : lookupKey eid st.enquiries = some e) :
    approve_enquiry noFault st eid pd =
      (Except.ok (),
        { st with
          active_clients := st.active_clients ++
            [(st.nextClientId,
              { client_name := pd.name
                contact_email := pd.email
                contact_phone := pd.phone
                project_title := pd.project_title
                project_description := pd.project_description
                delivery_date := pd.delivery_date
                advance_token := pd.billing_details
                project_manager := pd.project_manager
                project_reference := none
                status := defaultClientStatus })]
          nextClientId := st.nextClientId + 1
          enquiries := removeKey eid st.enquiries }) ∧
    lookupKey eid (approve_enquiry noFault st eid pd).2.enquiries = none := by
  constructor
  · simp [approve_enquiry, noFault, he]
  · simp [approve_enquiry, noFault, he, lookupKey_removeKey_self]

/-- Witness for the amended C2 at enquiry 1 of `stW`. -/
theorem approve_enquiry_effect_witness :
    lookupKey 1 stW.enquiries = some eW ∧
    lookupKey 1 (approve_enquiry noFault stW 1 peW).2.enquiries = none :=
  ⟨by decide, (approve_enquiry_effect stW 1 peW eW (by decide)).2⟩

/-- **C3**: `approve_quickcontact` first re-reads the quick contact's name
and phone from the store, answers 404 when the row is absent, and otherwise
inserts an `active_clients` row from the re-read name/phone plus the
caller-supplied project fields — propagating the optional `reference` into
`project_reference` — then deletes the quick-contact row. -/
theorem approve_quickcontact_effect (st : Storage) (cid : Nat)
    (pd : QuickContactApproveRequest) :
    (lookupKey cid st.quickcontacts = none →
      approve_quickcontact noFault st cid pd =
        (Except.error ApiError.notFound, st)) ∧
    (∀ c, lookupKey cid st.quickcontacts = some c →
      approve_quickcontact noFault st cid pd =
        (Except.ok (),
          { st with
            active_clients := st.active_clients ++
              [(st.nextClientId,
                { client_name := some c.name
                  contact_email := none
                  contact_phone := some c.phone
                  project_title := pd.project_title
                  project_description := pd.project_description
                  delivery_date := pd.delivery_date
                  advance_token := pd.billing_details
                  project_manager := pd.project_manager
                  project_reference := pd.reference
                  status := defaultClientStatus })]
            nextClientId := st.nextClientId + 1
            quickcontacts := removeKey cid st.quickcontacts })) := by
  constructor
  · intro h
    simp [approve_quickcontact, noFault, h]
  · intro c h
    simp [approve_quickcontact, noFault, h]

/-- Witness for C3 at quick contact 2 of `stW`: the inserted row carries the
re-read name/phone `Carol`/`333` and the request's reference. -/
theorem approve_quickcontact_effect_witness :
    lookupKey 2 stW.quickcontacts = some cW ∧
    approve_quickcontact noFault stW 2 pqW =
      (Except.ok (),
        ⟨[(1, eW)], [],
          [(0, ⟨some "Carol", none, some "333", "App", "Build an app",
            dateW, "adv2", "Mgr2", some "ref", "active"⟩)], 1⟩) :=
  ⟨by decide, (approve_quickcontact_effect stW 2 pqW).2 cW (by decide)⟩

/-- A concrete session dict for the session-registry witnesses. -/
def ssW : Sessions := [("a@x", ⟨"T", 100⟩)]

/-- A concrete user row. -/
def uW : User := ⟨1, "a@x", "p"⟩

/-- A concrete `users` table. -/
def usersW : List User := [uW]

/-- **C4**: `validate_session` answers invalid (401) exactly when no session
is stored for the email, or the stored token differs from the supplied one,
or the stored expiry is earlier than now; on every failure branch the stored
session entry for that email is removed, and on success the dict is left
unchanged. -/
theorem validate_session_spec (now : Nat) (ss : Sessions)
    (email session_id : String) :
    ((validate_session now ss email session_id).1 = false ↔
      (match lookupKey email ss with
        | none => True
        | some s => s.session_id ≠ session_id ∨ s.expires_at < now)) ∧
    ((validate_session now ss email session_id).1 = false →
      (validate_session now ss email session_id).2 = removeKey email ss) ∧
    ((validate_session now ss email session_id).1 = true →
      (validate_session now ss email session_id).2 = ss) := by
  cases h : lookupKey email ss with
  | none => simp [validate_session, h]
  | some s =>
    by_cases hc : s.session_id ≠ session_id ∨ s.expires_at < now
    · simp [validate_session, h, hc]
    · simp [validate_session, h, hc]

/-- Witness for C4: a wrong token at the concrete dict `ssW` is rejected and
evicts the stored session. -/
theorem validate_session_spec_witness :
    (validate_session 0 ssW "a@x" "bad").1 = false ∧
    (validate_session 0 ssW "a@x" "bad").2 = removeKey "a@x" ssW :=
  ⟨by decide, (validate_session_spec 0 ssW "a@x" "bad").2.1 (by decide)⟩

/-- **C5**: a second successful login for the same email overwrites the
stored session, so the first token no longer validates while the second
does (before its expiry). -/
theorem login_overwrites_previous_session (users : List User)
    (email pw t1 t2 : String) (now1 now2 now3 : Nat) (ss : Sessions)
    (u : User) (hu : get_user_by_email false users email = some u)
    (hpw : u.password = pw) (hne : t1 ≠ t2)
    (hexp : ¬ now2 + SESSION_DURATION_MINUTES * 60 < now3) :
    lookupKey email (login false users now2 t2
        (login false users now1 t1 ss email pw).2 email pw).2 =
      some ⟨t2, now2 + SESSION_DURATION_MINUTES * 60⟩ ∧
    (validate_session now3 (login false users now2 t2
        (login false users now1 t1 ss email pw).2 email pw).2
        email t1).1 = false ∧
    (validate_session now3 (login false users now2 t2
        (login false users now1 t1 ss email pw).2 email pw).2
        email t2).1 = true := by
  have hemail := get_user_by_email_email users email u hu
  subst hemail
  have hl1 : (login false users now1 t1 ss u.email pw).2 =
      setKey u.email ⟨t1, now1 + SESSION_DURATION_MINUTES * 60⟩ ss := by
    simp [login, hu, hpw]
  have hl2 : (login false users now2 t2
      (setKey u.email ⟨t1, now1 + SESSION_DURATION_MINUTES * 60⟩ ss)
      u.email pw).2 =
      setKey u.email ⟨t2, now2 + SESSION_DURATION_MINUTES * 60⟩
        (setKey u.email ⟨t1, now1 + SESSION_DURATION_MINUTES * 60⟩ ss) := by
    simp [login, hu, hpw]
  rw [hl1, hl2]
  refine ⟨lookupKey_setKey_self _ _ _, ?_, ?_⟩
  · simp [validate_session, lookupKey_setKey_self, Ne.symm hne]
  · simp [validate_session, lookupKey_setKey_self, hexp]

/-- Witness for C5 at the concrete user `uW`: tokens `T1` then `T2`, with
`T1` rejected and `T2` accepted before expiry. -/
theorem login_overwrites_previous_session_witness :
    (validate_session 10 (login false usersW 5 "T2"
        (login false usersW 0 "T1" [] "a@x" "p").2 "a@x" "p").2
        "a@x" "T1").1 = false ∧
    (validate_session 10 (login false usersW 5 "T2"
        (login false usersW 0 "T1" [] "a@x" "p").2 "a@x" "p").2
        "a@x" "T2").1 = true :=
  ⟨(login_overwrites_previous_session usersW "a@x" "p" "T1" "T2" 0 5 10 [] uW
      (by decide) (by decide) (by decide) (by decide)).2.1,
    (login_overwrites_previous_session usersW "a@x" "p" "T1" "T2" 0 5 10 [] uW
      (by decide) (by decide) (by decide) (by decide)).2.2⟩

/-- **C6**: for every id not present in the store, each of
`approve_enquiry`, `deny_enquiry`, `approve_quickcontact`,
`deny_quickcontact` and `complete_client_project` answers 404 and leaves the
store entirely unchanged. -/
theorem missing_id_not_found_no_mutation (st : Storage) (eid cid pid : Nat)
    (pe : ProjectApproveRequest) (pq : QuickContactApproveRequest)
    (he : lookupKey eid st.enquiries = none)
    (hc : lookupKey cid st.quickcontacts = none)
    (hp : lookupKey pid st.active_clients = none) :
    approve_enquiry noFault st eid pe =
      (Except.error ApiError.notFound, st) ∧
    deny_enquiry st eid = (Except.error ApiError.notFound, st) ∧
    approve_quickcontact noFault st cid pq =
      (Except.error ApiError.notFound, st) ∧
    deny_quickcontact st cid = (Except.error ApiError.notFound, st) ∧
    complete_client_project st pid =
      (Except.error ApiError.notFound, st) := by
  refine ⟨?_, ?_, ?_, ?_, ?_⟩ <;>
    simp [approve_enquiry, deny_enquiry, approve_quickcontact,
      deny_quickcontact, complete_client_project, noFault, he, hc, hp]

/-- Witness for C6 at the empty store and id 7. -/
theorem missing_id_not_found_no_mutation_witness :
    deny_enquiry ⟨[], [], [], 0⟩ 7 =
      (Except.error ApiError.notFound, ⟨[], [], [], 0⟩) :=
  (missing_id_not_found_no_mutation ⟨[], [], [], 0⟩ 7 7 7 peW pqW
    (by decide) (by decide) (by decide)).2.1

/-- **C7**: for every existing enquiry id, the first `deny_enquiry` succeeds,
deletes the enquiry row and creates no `active_clients` row; an immediately
following second `deny_enquiry` on the same id answers 404. -/
theorem deny_enquiry_twice (st : Storage) (eid : Nat) (e : Enquiry)
    (he : lookupKey eid st.enquiries = some e) :
    (deny_enquiry st eid).1 = Except.ok () ∧
    (deny_enquiry st eid).2 =
      { st with enquiries := removeKey eid st.enquiries } ∧
    (deny_enquiry st eid).2.active_clients = st.active_clients ∧
    deny_enquiry (deny_enquiry st eid).2 eid =
      (Except.error ApiError.notFound, (deny_enquiry st eid).2) := by
  have h1 : deny_enquiry st eid =
      (Except.ok (), { st with enquiries := removeKey eid st.enquiries }) := by
    simp [deny_enquiry, he]
  refine ⟨by simp [h1], by simp [h1], by simp [h1], ?_⟩
  rw [h1]
  simp [deny_enquiry, lookupKey_removeKey_self]

/-- Witness for C7 at enquiry 1 of `stW`. -/
theorem deny_enquiry_twice_witness :
    (deny_enquiry stW 1).1 = Except.ok () ∧
    deny_enquiry (deny_enquiry stW 1).2 1 =
      (Except.error ApiError.notFound, (deny_enquiry stW 1).2) :=
  ⟨(deny_enquiry_twice stW 1 eW (by decide)).1,
    (deny_enquiry_twice stW 1 eW (by decide)).2.2.2⟩

/-- **C8**: the record serializer is a pure function on row values: a
`Decimal` maps to its binary64 floating-point representation (decimal
`12.50` becomes the number `12.5`), a date or timestamp maps to its
ISO-8601 string (`2024-01-01` becomes `"2024-01-01"`), `None` maps to
`None`, every other value passes through unchanged, and in the row mapping
the field `image_url` is renamed to `imageUrl` while every other field name
passes through. -/
theorem serializer_spec :
    (∀ c e : Int, serialize_value (Value.vDecimal c e) =
      Value.vFloat (toF64 (decToQ c e))) ∧
    (∀ d : Date, serialize_value (Value.vDate d) = Value.vStr (dateIso d)) ∧
    (∀ t : Timestamp, serialize_value (Value.vDatetime t) =
      Value.vStr (timestampIso t)) ∧
    serialize_value Value.vNull = Value.vNull ∧
    (∀ s, serialize_value (Value.vStr s) = Value.vStr s) ∧
    (∀ n, serialize_value (Value.vInt n) = Value.vInt n) ∧
    (∀ b, serialize_value (Value.vBool b) = Value.vBool b) ∧
    (∀ f, serialize_value (Value.vFloat f) = Value.vFloat f) ∧
    serialize_value (Value.vDecimal 1250 (-2)) =
      Value.vFloat (F64.finite ⟨25, 2⟩) ∧
    serialize_value (Value.vDecimal 1 (-1)) =
      Value.vFloat (F64.finite ⟨3602879701896397, 36028797018963968⟩) ∧
    serialize_value (Value.vDate ⟨2024, 1, 1⟩) = Value.vStr "2024-01-01" ∧
    (∀ row, serialize_row_rename_image row =
      row.map fun kv =>
        (if kv.1 = "image_url" then "imageUrl" else kv.1,
          serialize_value kv.2)) ∧
    (∀ (row : List (String × Value)) (v : Value), ("image_url", v) ∈ row →
      ("imageUrl", serialize_value v) ∈ serialize_row_rename_image row) ∧
    (∀ (row : List (String × Value)) (k : String) (v : Value),
      k ≠ "image_url" → (k, v) ∈ row →
      (k, serialize_value v) ∈ serialize_row_rename_image row) := by
  have hmap : ∀ row : List (String × Value), serialize_row_rename_image row =
      row.map fun kv =>
        (if kv.1 = "image_url" then "imageUrl" else kv.1,
          serialize_value kv.2) := by
    intro row
    induction row with
    | nil => rfl
    | cons kv rest ih => simp [serialize_row_rename_image, ih]
  refine ⟨fun c e => rfl, fun d => rfl, fun t => rfl, rfl, fun s => rfl,
    fun n => rfl, fun b => rfl, fun f => rfl, by decide, by decide,
    by decide, hmap, ?_, ?_⟩
  · intro row v hv
    rw [hmap]
    exact List.mem_map.mpr ⟨("image_url", v), hv, by simp⟩
  · intro row k v hk hv
    rw [hmap]
    exact List.mem_map.mpr ⟨(k, v), hv, by simp [hk]⟩

/-- Witness for C8: the `image_url` entry of a concrete singleton row is
renamed with its serialized (here: unchanged) value. -/
theorem serializer_spec_witness :
    ("imageUrl", serialize_value (Value.vStr "x.png")) ∈
      serialize_row_rename_image [("image_url", Value.vStr "x.png")] := by
  obtain ⟨-, -, -, -, -, -, -, -, -, -, -, -, hmem, -⟩ := serializer_spec
  exact hmem [("image_url", Value.vStr "x.png")] (Value.vStr "x.png")
    (by decide)

/-- **C9**: `user_logout` unconditionally removes the session entry for the
email, never comparing the supplied token with the stored one; in
particular, after a login issuing token `fresh`, a logout carrying any other
token still evicts the session, so validating `fresh` afterwards fails. -/
theorem logout_unconditional (ss : Sessions) (email session_id : String)
    (users : List User) (pw fresh other : String) (now now2 : Nat)
    (u : User) (hu : get_user_by_email false users email = some u)
    (hpw : u.password = pw) (_hother : other ≠ fresh) :
    user_logout ss email session_id = removeKey email ss ∧
    (validate_session now2
      (user_logout (login false users now fresh ss email pw).2 email other)
      email fresh).1 = false := by
  refine ⟨rfl, ?_⟩
  have hemail := get_user_by_email_email users email u hu
  subst hemail
  have hl : (login false users now fresh ss u.email pw).2 =
      setKey u.email ⟨fresh, now + SESSION_DURATION_MINUTES * 60⟩ ss := by
    simp [login, hu, hpw]
  rw [hl]
  simp [user_logout, setKey, removeKey, validate_session,
    lookupKey_removeKey_self]

/-- Witness for C9 at the concrete user `uW`: logout with the wrong token
`X` still invalidates the issued token `T`. -/
theorem logout_unconditional_witness :
    (validate_session 1
      (user_logout (login false usersW 0 "T" [] "a@x" "p").2 "a@x" "X")
      "a@x" "T").1 = false :=
  (logout_unconditional [] "a@x" "sid" usersW "p" "T" "X" 0 1 uW
    (by decide) (by decide) (by decide)).2

/-- **C10**: when the user lookup hits a storage-layer exception,
`get_user_by_email` swallows it into `None` and `login` answers 401 — the
same response as an unknown email or a wrong password, never a 500. -/
theorem login_db_fault_unauthorized (users : List User) (now : Nat)
    (fresh : String) (ss : Sessions) (email pw : String) :
    get_user_by_email true users email = none ∧
    login true users now fresh ss email pw =
      (Except.error ApiError.unauthorized, ss) ∧
    login true users now fresh ss email pw =
      login false [] now fresh ss email pw ∧
    (∀ u, get_user_by_email false users email = some u → u.password ≠ pw →
      login false users now fresh ss email pw =
        (Except.error ApiError.unauthorized, ss)) := by
  refine ⟨rfl, rfl, rfl, ?_⟩
  intro u hu hne
  simp [login, hu, hne]

/-- Witness for C10: a database fault and a wrong password for the concrete
user `uW` produce the same 401 result. -/
theorem login_db_fault_unauthorized_witness :
    login false usersW 0 "T" [] "a@x" "wrong" =
      (Except.error ApiError.unauthorized, []) :=
  (login_db_fault_unauthorized usersW 0 "T" [] "a@x" "wrong").2.2.2 uW
    (by decide) (by decide)

end DgBackend
